import Mathlib

/-!
Verification of the Adaptive Reactor-Core Layout & Rendering-Quality
Controller of the Atucha-II-Max repository.

The definitions below are a shallow embedding of the relevant source:
  * the lattice generator of `src/components/reactor-core.tsx`
    (`pressureTubes`, `controlRods`);
  * the quality controller of `src/app/page.tsx`
    (`handleCapabilitiesDetected`, `shadowMapSize`, the render branch and
    the orbit-control gate).
JavaScript numbers are embedded as exact rationals (all arithmetic in the
generator is subtraction, halving and multiplication by the fixed spacing
constant, so every value is an exact rational); the `isNaN` guards of the
source are embedded through an `Option ℚ` layer where `none` stands for
NaN.  Square roots, temperatures and flux fractions live in `ℝ`.
-/

namespace AtuchaII

/-! ### Lattice generator (src/components/reactor-core.tsx, lines 38-72) -/

/-- One pressure-tube record as pushed by the generator loop:
`{ position: Vector3(colOffset, 0, rowOffset), id: tubeId++, ... }`.
`row` and `col` are the loop indices of the node (the spec's `rowIndex` /
`columnIndexInRow`); `posX`/`posZ` are the stored (NaN-guarded)
coordinates; `distSq` is the square of the JS `distanceFromCenter`
(`colOffset*colOffset + rowOffset*rowOffset`), kept in exact rational form
so that the list of nodes stays decidable. -/
structure LatticeNode where
  posX : ℚ
  posZ : ℚ
  id : ℕ
  row : ℕ
  col : ℕ
  distSq : ℚ
deriving DecidableEq, Repr

/-- The spacing constant 0.65 (the source's "Ultra-precise spacing"),
used for both the row and the column offset. -/
def rowSpacing : ℚ := 13 / 20

/-- The loop bound of the generator: `const rows = 27`. -/
def numRows : ℕ := 27

/-- The explicit per-row tube-count table `tubesPerRow` (31 entries). -/
def tubesPerRow : List ℕ :=
  [1, 3, 5, 7, 9, 11, 13, 15, 17, 19, 21, 23, 25, 27, 29, 29, 29,
   27, 25, 23, 21, 19, 17, 15, 13, 11, 9, 7, 5, 3, 1]

/-- Row vertical offset: `(row - (rows - 1) / 2) * 0.65`. -/
def rowOffset (row : ℕ) : ℚ :=
  ((row : ℚ) - ((numRows : ℚ) - 1) / 2) * rowSpacing

/-- Column offset within a row: `(col - (numTubes - 1) / 2) * 0.65`. -/
def colOffset (col numTubes : ℕ) : ℚ :=
  ((col : ℚ) - ((numTubes : ℚ) - 1) / 2) * rowSpacing

/-- The JS `isNaN(v) ? 0 : v` guard applied to the stored coordinates,
with `none` standing for NaN. -/
def nanToZero (x : Option ℚ) : ℚ :=
  match x with
  | none => 0
  | some v => v

/-- The node pushed for the cell at `(row, col)` with running id `id`.
The offsets here are exact rationals, so they are never NaN and the guard
receives `some`-values. -/
def mkNode (id : ℕ) (rc : ℕ × ℕ) : LatticeNode :=
  let numTubes := tubesPerRow.getD rc.1 0
  let co := colOffset rc.2 numTubes
  let ro := rowOffset rc.1
  { posX := nanToZero (some co)
    posZ := nanToZero (some ro)
    id := id
    row := rc.1
    col := rc.2
    distSq := co * co + ro * ro }

/-- The `(row, col)` cells visited by the two nested loops, in visit
order: `row` ranges over `[0, rows)`, `col` over
`[0, tubesPerRow[row] || 0)`. -/
def latticeCells : List (ℕ × ℕ) :=
  (List.range numRows).flatMap fun row =>
    (List.range (tubesPerRow.getD row 0)).map fun col => (row, col)

/-- The flattened tube list before truncation, with ids assigned in
generation order (`tubeId++`). -/
def allTubes : List LatticeNode :=
  latticeCells.enum.map fun p => mkNode p.1 p.2

/-- Truncation `tubes.slice(0, targetTubeCount)` of the flattened lattice
to the target count (451 in the source). -/
def generate (targetTubeCount : ℕ) : List LatticeNode :=
  allTubes.take targetTubeCount

/-- The source's `pressureTubes` memo: the lattice truncated to the
"Exact Atucha II count" of 451. -/
def pressureTubes : List LatticeNode :=
  generate 451

/-- Control-rod selection
`pressureTubes.filter((_, index) => index % 12 === 0).slice(0, 37)`,
parameterised by the stride and the cap.  (The source's early return of
an empty array for an empty tube list coincides with this formula.) -/
def controlRods (tubes : List LatticeNode) (rodStride maxRodCount : ℕ) :
    List LatticeNode :=
  (((tubes.enum.filter fun p => p.1 % rodStride == 0).map Prod.snd)).take
    maxRodCount

/-- The source's `controlRods` memo: stride 12, capped at 37. -/
def controlRodsMain : List LatticeNode :=
  controlRods pressureTubes 12 37

/-- Distance `Math.sqrt(colOffset*colOffset + rowOffset*rowOffset)` of a
node from the lattice center. -/
noncomputable def distanceFromCenter (n : LatticeNode) : ℝ :=
  Real.sqrt (n.distSq : ℝ)

/-- Per-node temperature `280 + (15 - distanceFromCenter) * 12` (the
source's NaN fallback to 280 never fires over the reals). -/
noncomputable def temperature (n : LatticeNode) : ℝ :=
  280 + (15 - distanceFromCenter n) * 12

/-- Per-node flux fraction `Math.max(0, 1 - distanceFromCenter / 15)`
(the source's NaN fallback to 0 never fires over the reals). -/
noncomputable def fluxFraction (n : LatticeNode) : ℝ :=
  max 0 (1 - distanceFromCenter n / 15)

/-- The per-row tube counts of the generated (truncated) lattice: for each
row index in loop range, the number of truncated-lattice nodes carrying
that row index, restricted to the rows that still hold at least one
node. -/
def latticeRowCounts : List ℕ :=
  ((List.range numRows).map fun r =>
    (pressureTubes.filter fun n => n.row == r).length).filter (· ≠ 0)

/-- Spec-side formula (§4.3 LatticeGenerator): row vertical offset
`(r - (R-1)/2) * rowSpacing`, written from the spec's words for
comparison with the source. -/
def specRowOffset (r R : ℕ) (spacing : ℚ) : ℚ :=
  ((r : ℚ) - ((R : ℚ) - 1) / 2) * spacing

/-- Spec-side formula (§4.3 LatticeGenerator): column offset
`(c - (count-1)/2) * rowSpacing`, written from the spec's words for
comparison with the source. -/
def specColOffset (c count : ℕ) (spacing : ℚ) : ℚ :=
  ((c : ℚ) - ((count : ℚ) - 1) / 2) * spacing

/-! ### Quality controller and page glue (src/app/page.tsx) -/

/-- The `WebGLCapabilities` snapshot interface of `src/app/page.tsx`
(the spec's `DeviceCapabilities`). -/
structure WebGLCapabilities where
  webgl : Bool
  webgl2 : Bool
  maxTextureSize : ℤ
  maxRenderbufferSize : ℤ
  maxVertexUniforms : ℤ
  maxFragmentUniforms : ℤ
  extensions : List String
deriving DecidableEq, Repr

/-- A capabilities snapshot with a given texture limit; the other fields
are fixed innocuous values (the handler and `shadowMapSize` read only
`maxTextureSize`). -/
def mkCaps (mts : ℤ) : WebGLCapabilities :=
  { webgl := true
    webgl2 := true
    maxTextureSize := mts
    maxRenderbufferSize := 2048
    maxVertexUniforms := 4096
    maxFragmentUniforms := 1024
    extensions := [] }

/-- A snapshot of a host whose probe reports WebGL unsupported. -/
def noWebglCaps : WebGLCapabilities :=
  { webgl := false
    webgl2 := false
    maxTextureSize := 0
    maxRenderbufferSize := 0
    maxVertexUniforms := 0
    maxFragmentUniforms := 0
    extensions := [] }

/-- The alternatives of the mobile-device regex
`/Android|webOS|iPhone|iPad|iPod|BlackBerry|IEMobile|Opera Mini/i`,
as written in the source. -/
def mobilePatterns : List String :=
  ["Android", "webOS", "iPhone", "iPad", "iPod", "BlackBerry",
   "IEMobile", "Opera Mini"]

/-- ASCII lowering of one character (the effect of the regex's `i` flag on
the pattern's ASCII alternatives). -/
def lowerChar (c : Char) : Char :=
  if 65 ≤ c.toNat && c.toNat ≤ 90 then Char.ofNat (c.toNat + 32) else c

/-- A string as a case-normalised character list. -/
def lowerStr (s : String) : List Char :=
  s.toList.map lowerChar

/-- Whether `pat` occurs at the head of `txt`. -/
def listStartsWith : List Char → List Char → Bool
  | [], _ => true
  | _ :: _, [] => false
  | a :: as, b :: bs => a == b && listStartsWith as bs

/-- Whether `pat` occurs anywhere in `txt` (regex-test of a literal
pattern). -/
def listContainsSub (pat : List Char) : List Char → Bool
  | [] => pat.isEmpty
  | c :: cs => listStartsWith pat (c :: cs) || listContainsSub pat cs

/-- The source's `isMobile` test: the case-insensitive regex
`/Android|webOS|iPhone|iPad|iPod|BlackBerry|IEMobile|Opera Mini/i`
applied to `navigator.userAgent`, embedded as case-normalised substring
search for any of the eight literal alternatives. -/
def isMobileUA (userAgent : String) : Bool :=
  mobilePatterns.any fun p => listContainsSub (lowerStr p) (lowerStr userAgent)

/-- The body of `handleCapabilitiesDetected` (src/app/page.tsx, lines
146-163): the quality level it stores, as a function of the `isMobile`
test, the detected capabilities and the current level
(`setQualityLevel(1)` on mobile or limited hardware, `setQualityLevel(2)`
on mid-range hardware, otherwise the level is left as it is). -/
def handleCapabilitiesDetected (isMobile : Bool) (caps : WebGLCapabilities)
    (current : ℕ) : ℕ :=
  if isMobile || caps.maxTextureSize < 2048 then 1
  else if caps.maxTextureSize < 4096 then 2
  else current

/-- Spec-side threshold mapping (§3 QualityLevel), written from the spec's
words for comparison with the source handler: maxTextureSize below 2048
gives LOW (1), below 4096 gives MEDIUM (2), otherwise the level is left
unchanged. -/
def specQualityThreshold (maxTextureSize : ℤ) (current : ℕ) : ℕ :=
  if maxTextureSize < 2048 then 1
  else if maxTextureSize < 4096 then 2
  else current

/-- The tier base size `qualityLevel >= 3 ? 2048 : qualityLevel >= 2 ?
1024 : 512` from the `shadowMapSize` expression. -/
def tierBaseSize (qualityLevel : ℕ) : ℚ :=
  if 3 ≤ qualityLevel then 2048 else if 2 ≤ qualityLevel then 1024 else 512

/-- The `shadowMapSize` constant of `src/app/page.tsx` (lines 165-167):
`webglCapabilities?.maxTextureSize ? Math.min(tier, maxTextureSize / 2) :
512`.  A missing snapshot and a zero (JS-falsy) `maxTextureSize` both
select the 512 fallback. -/
def shadowMapSize (caps : Option WebGLCapabilities) (qualityLevel : ℕ) : ℚ :=
  match caps with
  | some c =>
      if c.maxTextureSize ≠ 0 then
        min (tierBaseSize qualityLevel) ((c.maxTextureSize : ℚ) / 2)
      else 512
  | none => 512

/-- What the page component returns, at the granularity the claims need. -/
inductive RenderOutput where
  | loadingScreen : RenderOutput
  | fallbackView : RenderOutput
  | scene3D : RenderOutput
deriving DecidableEq, Repr

/-- JS truthiness of `webglCapabilities?.webgl`: `undefined` (no snapshot
yet) is falsy. -/
def capsWebgl : Option WebGLCapabilities → Bool
  | none => false
  | some c => c.webgl

/-- The render branch of `AtucharIIVisualization`: a loading screen until
the client has initialised (or after an initialisation error), then
`!webglCapabilities?.webgl ? <FallbackView /> : <div>…<Canvas>…</div>`. -/
def renderApp (isClient hasError : Bool) (caps : Option WebGLCapabilities) :
    RenderOutput :=
  if !isClient || hasError then RenderOutput.loadingScreen
  else if !(capsWebgl caps) then RenderOutput.fallbackView
  else RenderOutput.scene3D

/-- The `enabled` prop of `OrbitControls` (src/app/page.tsx, lines
344-354): `!tourActive && (typeof window !== "undefined" ?
window.innerWidth >= 768 : true)`. -/
def orbitControlsEnabled (tourActive : Bool) (windowDefined : Bool)
    (innerWidth : ℕ) : Bool :=
  !tourActive && (if windowDefined then decide (768 ≤ innerWidth) else true)

/-- The first node pushed by the generator (row 0, column 0). -/
def node0 : LatticeNode := mkNode 0 (0, 0)

/-- The second node pushed by the generator (row 1, column 0). -/
def node1 : LatticeNode := mkNode 1 (1, 0)

/-! ### Supporting lemmas -/

/-- Selecting via `filter` on `enumFrom` indices and projecting the
elements back out yields a sublist of the original list. -/
theorem filter_enumFrom_map_snd_sublist {α : Type*} (p : ℕ × α → Bool) :
    ∀ (k : ℕ) (l : List α), List.Sublist (((l.enumFrom k).filter p).map Prod.snd) l := by
  intro k l
  induction l generalizing k with
  | nil => simp
  | cons a t ih =>
    rw [List.enumFrom_cons, List.filter_cons]
    by_cases h : p (k, a) = true
    · simp only [h, if_true, List.map_cons]
      exact (ih (k + 1)).cons₂ a
    · simp only [h, if_false]
      exact (ih (k + 1)).cons a

/-- The number of multiples of `s` among `0, …, n-1` is the ceiling of
`n / s`. -/
theorem length_filter_mod_range (s : ℕ) (hs : 0 < s) :
    ∀ n : ℕ, ((List.range n).filter fun j => j % s == 0).length
      = (n + s - 1) / s := by
  intro n
  induction n with
  | zero =>
    simp [Nat.div_eq_of_lt (Nat.sub_lt hs Nat.one_pos)]
  | succ n ih =>
    rw [List.range_succ, List.filter_append, List.length_append, ih]
    have h1 : n + 1 + s - 1 = n + s - 1 + 1 := by omega
    have h2 : n + s - 1 + 1 = n + s := by omega
    rw [h1, Nat.succ_div, h2]
    have hsingle : (List.filter (fun j => j % s == 0) [n]).length
        = if s ∣ n then 1 else 0 := by
      by_cases h : s ∣ n
      · have hm : n % s = 0 := Nat.mod_eq_zero_of_dvd h
        simp [hm, h]
      · have hm : n % s ≠ 0 := fun hc => h (Nat.dvd_of_mod_eq_zero hc)
        simp [hm, h]
    rw [hsingle]
    congr 1
    simp [Nat.dvd_add_self_right]

/-- Filtering `enumFrom` by an index-only predicate keeps as many
elements as filtering the matching index range. -/
theorem length_filter_enumFrom_mod {α : Type*} (s k : ℕ) (l : List α) :
    ((l.enumFrom k).filter fun q => q.1 % s == 0).length
      = ((List.range' k l.length).filter fun j => j % s == 0).length := by
  rw [← List.enumFrom_map_fst k l, List.filter_map, List.length_map]
  rfl

/-- The truncated lattice has exactly the target length whenever the
target does not exceed the untruncated lattice. -/
theorem generate_length (t : ℕ) (ht : t ≤ allTubes.length) :
    (generate t).length = t := by
  rw [generate, List.length_take, Nat.min_eq_left ht]

set_option maxRecDepth 40000 in
/-- The untruncated tube ids are `0, …, 462` in generation order. -/
theorem allTubes_map_id : allTubes.map (·.id) = List.range allTubes.length := by
  decide

/-- The truncated tube ids are `0, …, t-1` in generation order. -/
theorem generate_map_id (t : ℕ) (ht : t ≤ allTubes.length) :
    (generate t).map (·.id) = List.range t := by
  rw [generate, List.map_take, allTubes_map_id, List.take_range,
    Nat.min_eq_left ht]

/-- The selected control rods are a sublist of the tube list they are
selected from. -/
theorem controlRods_sublist (l : List LatticeNode) (s m : ℕ) :
    List.Sublist (controlRods l s m) l :=
  (List.take_sublist _ _).trans (filter_enumFrom_map_snd_sublist _ 0 l)

/-- The control-rod count is the capped ceiling `min m ⌈|l| / s⌉`. -/
theorem controlRods_length (l : List LatticeNode) (s m : ℕ) (hs : 0 < s) :
    (controlRods l s m).length = min m ((l.length + s - 1) / s) := by
  rw [controlRods, List.length_take, List.length_map]
  congr 1
  have h0 : l.enum = l.enumFrom 0 := rfl
  rw [h0, length_filter_enumFrom_mod s 0 l, ← List.range_eq_range',
    length_filter_mod_range s hs]

/-- Structural description of every truncated-lattice node: its loop
indices are in range and its stored fields are the loop-computed
offsets. -/
theorem mem_pressureTubes_fields :
    ∀ n ∈ pressureTubes,
      n.row < numRows ∧
      n.col < tubesPerRow.getD n.row 0 ∧
      n.posX = colOffset n.col (tubesPerRow.getD n.row 0) ∧
      n.posZ = rowOffset n.row ∧
      n.distSq = n.posX * n.posX + n.posZ * n.posZ := by
  intro n hn
  have hn' : n ∈ allTubes := List.mem_of_mem_take hn
  rw [allTubes] at hn'
  obtain ⟨⟨i, rc⟩, hp, rfl⟩ := List.mem_map.1 hn'
  have hrc : rc ∈ latticeCells := by
    have hget := List.mem_enum_iff_getElem?.1 hp
    exact List.getElem?_mem hget
  rw [latticeCells] at hrc
  obtain ⟨row, hrow, hrc2⟩ := List.mem_flatMap.1 hrc
  obtain ⟨col, hcol, rfl⟩ := List.mem_map.1 hrc2
  rw [List.mem_range] at hrow hcol
  exact ⟨hrow, hcol, rfl, rfl, rfl⟩

/-- Every per-row tube count seen by the loop is at most 29. -/
theorem tubesPerRow_getD_le (r : ℕ) (hr : r < numRows) :
    tubesPerRow.getD r 0 ≤ 29 := by
  have h : ∀ x ∈ List.range numRows, tubesPerRow.getD x 0 ≤ 29 := by decide
  exact h r (List.mem_range.2 hr)

/-- The squared distance of every truncated-lattice node is bounded by
`(9.1)² + (8.45)² = 61685/400`. -/
theorem distSq_le (n : LatticeNode) (hn : n ∈ pressureTubes) :
    n.distSq ≤ 61685 / 400 := by
  obtain ⟨hrow, hcol, hx, hz, hd⟩ := mem_pressureTubes_fields n hn
  have hm0 : 0 < tubesPerRow.getD n.row 0 := Nat.lt_of_le_of_lt (Nat.zero_le _) hcol
  have hm29 : ((tubesPerRow.getD n.row 0 : ℕ) : ℚ) ≤ 29 := by
    exact_mod_cast tubesPerRow_getD_le n.row hrow
  have hm1 : (1 : ℚ) ≤ ((tubesPerRow.getD n.row 0 : ℕ) : ℚ) := by
    exact_mod_cast hm0
  have hcolQ : (n.col : ℚ) ≤ ((tubesPerRow.getD n.row 0 : ℕ) : ℚ) - 1 := by
    have h1 : (n.col : ℕ) + 1 ≤ tubesPerRow.getD n.row 0 := hcol
    have h2 : ((n.col : ℕ) : ℚ) + 1 ≤ ((tubesPerRow.getD n.row 0 : ℕ) : ℚ) := by
      exact_mod_cast h1
    linarith
  have hcol0 : (0 : ℚ) ≤ (n.col : ℚ) := Nat.cast_nonneg _
  have hrowQ : (n.row : ℚ) ≤ 26 := by
    have h1 : n.row ≤ 26 := Nat.lt_succ_iff.1 hrow
    exact_mod_cast h1
  have hrow0 : (0 : ℚ) ≤ (n.row : ℚ) := Nat.cast_nonneg _
  have hxB : n.posX * n.posX ≤ 8281 / 100 := by
    rw [hx, colOffset, rowSpacing]
    have ha1 : (n.col : ℚ) - (((tubesPerRow.getD n.row 0 : ℕ) : ℚ) - 1) / 2 ≤ 14 := by
      linarith
    have ha2 : -14 ≤ (n.col : ℚ) - (((tubesPerRow.getD n.row 0 : ℕ) : ℚ) - 1) / 2 := by
      linarith
    nlinarith [mul_nonneg (by linarith : (0 : ℚ) ≤ 14 -
        ((n.col : ℚ) - (((tubesPerRow.getD n.row 0 : ℕ) : ℚ) - 1) / 2))
      (by linarith : (0 : ℚ) ≤ 14 +
        ((n.col : ℚ) - (((tubesPerRow.getD n.row 0 : ℕ) : ℚ) - 1) / 2))]
  have hzB : n.posZ * n.posZ ≤ 28561 / 400 := by
    have hz' : n.posZ = ((n.row : ℚ) - 13) * (13 / 20) := by
      rw [hz, rowOffset, rowSpacing, numRows]
      norm_num
    rw [hz']
    nlinarith [mul_nonneg (by linarith : (0 : ℚ) ≤ 13 - ((n.row : ℚ) - 13))
      (by linarith : (0 : ℚ) ≤ 13 + ((n.row : ℚ) - 13))]
  rw [hd]
  linarith

/-- The distance of every truncated-lattice node from the center is below
`115/3`, the zero of the temperature gradient. -/
theorem distance_le (n : LatticeNode) (hn : n ∈ pressureTubes) :
    distanceFromCenter n ≤ 115 / 3 := by
  have h := distSq_le n hn
  have h' : (n.distSq : ℝ) ≤ (115 / 3 : ℝ) ^ 2 := by
    have h1 : ((n.distSq : ℚ) : ℝ) ≤ ((61685 / 400 : ℚ) : ℝ) := by
      exact_mod_cast h
    push_cast at h1
    nlinarith [h1]
  calc distanceFromCenter n = Real.sqrt (n.distSq : ℝ) := rfl
    _ ≤ Real.sqrt ((115 / 3 : ℝ) ^ 2) := Real.sqrt_le_sqrt h'
    _ = 115 / 3 := Real.sqrt_sq (by norm_num)

/-! ### Claim theorems -/

set_option maxRecDepth 40000 in
/-- C1: with the fixed generation parameters targetTubeCount = 451,
rodStride = 12, maxRodCount = 37, the lattice generator returns exactly
451 pressure-tube nodes whose ids are exactly 0, …, 450 in generation
order (hence unique and sequential in [0, 451)), and exactly 37 control
rods. -/
theorem generate_fixed_params_tube_and_rod_counts :
    pressureTubes.length = 451 ∧
    pressureTubes.map (·.id) = List.range 451 ∧
    controlRodsMain.length = 37 := by
  refine ⟨?_, ?_, ?_⟩ <;> decide

/-- C2: control-rod selection takes every rodStride-th node of the
truncated tube list in order, capped at maxRodCount without wrap-around,
so the rod count is min(maxRodCount, ceil(targetTubeCount / rodStride))
and the rods are a subsequence of the tube list in strictly increasing id
order. -/
theorem controlRods_selection_spec :
    ∀ t s m : ℕ, 0 < s → t ≤ allTubes.length →
      (controlRods (generate t) s m).length = min m ((t + s - 1) / s) ∧
      List.Sublist (controlRods (generate t) s m) (generate t) ∧
      ((controlRods (generate t) s m).map (·.id)).Pairwise (· < ·) := by
  intro t s m hs ht
  refine ⟨?_, controlRods_sublist _ s m, ?_⟩
  · rw [controlRods_length _ s m hs, generate_length t ht]
  · have hsub := (controlRods_sublist (generate t) s m).map (·.id)
    rw [generate_map_id t ht] at hsub
    exact (List.pairwise_lt_range t).sublist hsub

set_option maxRecDepth 40000 in
/-- C2 witness: the selection property instantiated at the source's
(451, 12, 37); the rod count is min 37 38 = 37. -/
theorem controlRods_selection_spec_witness :
    0 < 12 ∧ 451 ≤ allTubes.length ∧
      ((controlRods (generate 451) 12 37).length = min 37 ((451 + 12 - 1) / 12) ∧
       List.Sublist (controlRods (generate 451) 12 37) (generate 451) ∧
       ((controlRods (generate 451) 12 37).map (·.id)).Pairwise (· < ·)) :=
  ⟨by norm_num, by decide,
    controlRods_selection_spec 451 12 37 (by norm_num) (by decide)⟩

/-- C3: every generated lattice node satisfies the spec's temperature and
flux formulas — `temperatureC = 280 + (15 - distanceFromCenter) * 12` and
`fluxFraction = max 0 (1 - distanceFromCenter / 15)` — with the
temperature finite and non-negative and the flux fraction in [0, 1]. -/
theorem lattice_thermal_invariants :
    ∀ n ∈ pressureTubes,
      temperature n = 280 + (15 - distanceFromCenter n) * 12 ∧
      fluxFraction n = max 0 (1 - distanceFromCenter n / 15) ∧
      0 ≤ temperature n ∧
      0 ≤ fluxFraction n ∧ fluxFraction n ≤ 1 := by
  intro n hn
  have hd := distance_le n hn
  have hd0 : 0 ≤ distanceFromCenter n := Real.sqrt_nonneg _
  refine ⟨rfl, rfl, ?_, le_max_left _ _, ?_⟩
  · rw [temperature]; linarith
  · rw [fluxFraction]
    refine max_le (by norm_num) ?_
    have h15 : 0 ≤ distanceFromCenter n / 15 := by positivity
    linarith

/-- C3 witness: the thermal invariants at the first generated node. -/
theorem lattice_thermal_invariants_witness :
    node0 ∈ pressureTubes ∧
      (0 ≤ temperature node0 ∧ 0 ≤ fluxFraction node0 ∧
        fluxFraction node0 ≤ 1) := by
  have hmem : node0 ∈ pressureTubes := by
    have h : pressureTubes = node0 :: pressureTubes.tail := rfl
    rw [h]
    exact List.mem_cons_self _ _
  obtain ⟨-, -, h3, h4, h5⟩ := lattice_thermal_invariants node0 hmem
  exact ⟨hmem, h3, h4, h5⟩

set_option maxRecDepth 40000 in
/-- C4 counterexample: the per-row tube counts of the generated lattice do
not decrease back to 1 at the last generated row (that row holds 8
tubes), and the generated count sequence is not symmetric. -/
theorem latticeRowCounts_not_diamond :
    latticeRowCounts.getLast? = some 8 ∧
    latticeRowCounts ≠ latticeRowCounts.reverse := by
  refine ⟨?_, ?_⟩ <;> decide

set_option maxRecDepth 40000 in
/-- C4 amended: the fixed per-row profile table itself is a symmetric
diamond — palindromic, 1 at both ends, peaking at 29 — but the generator
consumes only its first 27 entries and truncates at 451 tubes, so the
generated per-row counts rise from 1 to 29 and then fall only to 8 at the
last generated row. -/
theorem row_profile_diamond_amended :
    tubesPerRow = tubesPerRow.reverse ∧
    tubesPerRow.head? = some 1 ∧
    tubesPerRow.getLast? = some 1 ∧
    tubesPerRow.all (fun x => x ≤ 29) = true ∧
    (29 : ℕ) ∈ tubesPerRow ∧
    latticeRowCounts =
      [1, 3, 5, 7, 9, 11, 13, 15, 17, 19, 21, 23, 25, 27, 29, 29, 29,
       27, 25, 23, 21, 19, 17, 15, 13, 8] := by
  refine ⟨?_, ?_, ?_, ?_, ?_, ?_⟩ <;> decide

/-- C5 counterexample: on a mobile user agent the handler ignores the
texture-size thresholds — maxTextureSize = 3000 yields LOW (1) instead of
the claimed MEDIUM (2), and maxTextureSize = 8192 overwrites a current
HIGH level (3) with LOW instead of leaving it unchanged. -/
theorem quality_threshold_mobile_counterexample :
    handleCapabilitiesDetected true (mkCaps 3000) 2 = 1 ∧ (1 : ℕ) ≠ 2 ∧
    handleCapabilitiesDetected true (mkCaps 8192) 3 ≠ 3 := by
  refine ⟨?_, ?_, ?_⟩ <;> decide

/-- C5 amended: for every non-mobile environment the derived quality
level is exactly the spec's threshold mapping of maxTextureSize
(below 2048 → LOW, below 4096 → MEDIUM, otherwise unchanged); in
particular 1024 → LOW, 3000 → MEDIUM and 8192 leaves the level
unchanged.  (A mobile user agent instead forces LOW; see C10.) -/
theorem quality_threshold_nonmobile :
    ∀ (caps : WebGLCapabilities) (current : ℕ),
      handleCapabilitiesDetected false caps current
        = specQualityThreshold caps.maxTextureSize current ∧
      handleCapabilitiesDetected false (mkCaps 1024) current = 1 ∧
      handleCapabilitiesDetected false (mkCaps 3000) current = 2 ∧
      handleCapabilitiesDetected false (mkCaps 8192) current = current := by
  intro caps current
  refine ⟨?_, ?_, ?_, ?_⟩ <;>
    norm_num [handleCapabilitiesDetected, specQualityThreshold, mkCaps]

/-- C6 counterexample: a detected snapshot with maxTextureSize = 0
(JS-falsy) selects the 512 fallback, which both differs from
min(tierBaseSize(level), maxTextureSize / 2) = 0 and exceeds
maxTextureSize / 2 = 0. -/
theorem shadowMapSize_zero_texture_counterexample :
    shadowMapSize (some (mkCaps 0)) 1 = 512 ∧
    shadowMapSize (some (mkCaps 0)) 1
      ≠ min (tierBaseSize 1) (((mkCaps 0).maxTextureSize : ℚ) / 2) ∧
    ¬ shadowMapSize (some (mkCaps 0)) 1
        ≤ ((mkCaps 0).maxTextureSize : ℚ) / 2 := by
  refine ⟨?_, ?_, ?_⟩ <;>
    norm_num [shadowMapSize, tierBaseSize, mkCaps]

/-- C6 amended: for every quality tier and every detected snapshot whose
maxTextureSize is nonzero, shadowMapSize = min(tierBaseSize(level),
maxTextureSize / 2) with tierBaseSize mapping LOW (1) → 512, MEDIUM (2)
→ 1024 and HIGH/ULTRA (3, 4) → 2048, so shadowMapSize never exceeds
maxTextureSize / 2; with no snapshot, or a zero (JS-falsy)
maxTextureSize, the 512 fallback is used instead. -/
theorem shadowMapSize_min_formula :
    ∀ (c : WebGLCapabilities) (lvl : ℕ), c.maxTextureSize ≠ 0 →
      shadowMapSize (some c) lvl
        = min (tierBaseSize lvl) ((c.maxTextureSize : ℚ) / 2) ∧
      shadowMapSize (some c) lvl ≤ (c.maxTextureSize : ℚ) / 2 ∧
      tierBaseSize 1 = 512 ∧ tierBaseSize 2 = 1024 ∧
      tierBaseSize 3 = 2048 ∧ tierBaseSize 4 = 2048 := by
  intro c lvl h
  have hmain : shadowMapSize (some c) lvl
      = min (tierBaseSize lvl) ((c.maxTextureSize : ℚ) / 2) := by
    simp only [shadowMapSize]
    rw [if_pos h]
  refine ⟨hmain, hmain ▸ min_le_right _ _, ?_, ?_, ?_, ?_⟩ <;>
    norm_num [tierBaseSize]

/-- C6 witness: the formula at level HIGH with an 8192 snapshot, where
shadowMapSize = min 2048 4096 stays below 4096. -/
theorem shadowMapSize_min_formula_witness :
    (mkCaps 8192).maxTextureSize ≠ 0 ∧
      shadowMapSize (some (mkCaps 8192)) 3
        ≤ ((mkCaps 8192).maxTextureSize : ℚ) / 2 :=
  ⟨by decide, (shadowMapSize_min_formula (mkCaps 8192) 3 (by decide)).2.1⟩

/-- C7 counterexample: with no tour active but a window narrower than 768
pixels, the source reports free-orbit input as disabled, refuting that
free-orbit is enabled if and only if no tour is active. -/
theorem orbit_gating_counterexample :
    orbitControlsEnabled false true 500 = false ∧ (!false) = true := by
  refine ⟨?_, ?_⟩ <;> decide

/-- C7 amended: the free-orbit camera input capability is reported as
disabled whenever a tour is active; it is enabled exactly when no tour is
active and, on a defined window, the viewport is at least 768 pixels wide
(the desktop breakpoint). -/
theorem orbit_gating_amended :
    ∀ (tourActive windowDefined : Bool) (innerWidth : ℕ),
      (tourActive = true →
        orbitControlsEnabled tourActive windowDefined innerWidth = false) ∧
      (orbitControlsEnabled tourActive windowDefined innerWidth = true ↔
        tourActive = false ∧ (windowDefined = false ∨ 768 ≤ innerWidth)) := by
  intro tourActive windowDefined innerWidth
  constructor
  · intro h
    subst h
    rfl
  · cases tourActive <;> cases windowDefined <;>
      simp [orbitControlsEnabled]

/-- C7 witness: a running tour on a wide desktop window disables
free-orbit input. -/
theorem orbit_gating_amended_witness :
    orbitControlsEnabled true true 1024 = false :=
  (orbit_gating_amended true true 1024).1 rfl

/-- C8: every node's stored position follows the spec's offset formulas
with the same spacing constant for rows and columns, its distance from
the center is the Euclidean norm of the offset pair, and the NaN guard
replaces NaN with zero while leaving every number unchanged. -/
theorem node_position_formulas :
    (∀ n ∈ pressureTubes,
      n.posZ = specRowOffset n.row numRows rowSpacing ∧
      n.posX = specColOffset n.col (tubesPerRow.getD n.row 0) rowSpacing ∧
      n.distSq = n.posX * n.posX + n.posZ * n.posZ ∧
      distanceFromCenter n
        = Real.sqrt ((n.posX * n.posX + n.posZ * n.posZ : ℚ) : ℝ)) ∧
    nanToZero none = 0 ∧ (∀ q : ℚ, nanToZero (some q) = q) := by
  refine ⟨?_, rfl, fun q => rfl⟩
  intro n hn
  obtain ⟨hrow, hcol, hx, hz, hd⟩ := mem_pressureTubes_fields n hn
  refine ⟨hz, hx, hd, ?_⟩
  rw [distanceFromCenter, hd]

/-- C8 witness: the position formulas at the second generated node
(row 1, column 0). -/
theorem node_position_formulas_witness :
    node1 ∈ pressureTubes ∧
      (node1.posZ = specRowOffset node1.row numRows rowSpacing ∧
       node1.posX
         = specColOffset node1.col (tubesPerRow.getD node1.row 0) rowSpacing ∧
       node1.distSq = node1.posX * node1.posX + node1.posZ * node1.posZ ∧
       distanceFromCenter node1
         = Real.sqrt
             ((node1.posX * node1.posX + node1.posZ * node1.posZ : ℚ) : ℝ)) := by
  have hmem : node1 ∈ pressureTubes := by
    have h : pressureTubes = node0 :: node1 :: pressureTubes.tail.tail := rfl
    rw [h]
    exact List.mem_cons_of_mem _ (List.mem_cons_self _ _)
  exact ⟨hmem, node_position_formulas.1 node1 hmem⟩

/-- C9: when the capability probe reports WebGL unsupported, the page
renders the fallback view (once the client has initialised without an
error), and in no client/error state renders the 3D canvas; the render
branch is a total function, so there is no crash path. -/
theorem webgl_unsupported_fallback :
    ∀ caps : WebGLCapabilities, caps.webgl = false →
      renderApp true false (some caps) = RenderOutput.fallbackView ∧
      ∀ isClient hasError : Bool,
        renderApp isClient hasError (some caps) ≠ RenderOutput.scene3D := by
  intro caps h
  constructor
  · simp [renderApp, capsWebgl, h]
  · intro isClient hasError
    cases isClient <;> cases hasError <;> simp [renderApp, capsWebgl, h]

/-- C9 witness: a concrete unsupported snapshot is routed to the fallback
view and never to the 3D scene. -/
theorem webgl_unsupported_fallback_witness :
    noWebglCaps.webgl = false ∧
      renderApp true false (some noWebglCaps) = RenderOutput.fallbackView ∧
      renderApp true true (some noWebglCaps) ≠ RenderOutput.scene3D :=
  ⟨rfl, (webgl_unsupported_fallback noWebglCaps rfl).1,
    (webgl_unsupported_fallback noWebglCaps rfl).2 true true⟩

/-- C10: whenever the user-agent string matches the mobile-device
pattern, the capabilities handler sets the quality level to LOW (1),
whatever maxTextureSize and the current level are — including
maxTextureSize at or above 4096. -/
theorem mobile_forces_low_quality :
    ∀ (userAgent : String) (caps : WebGLCapabilities) (current : ℕ),
      isMobileUA userAgent = true →
      handleCapabilitiesDetected (isMobileUA userAgent) caps current = 1 := by
  intro userAgent caps current h
  rw [h]
  rfl

/-- C10 witness: an iPhone user agent with an 8192 texture limit and a
current ULTRA level is still forced to LOW. -/
theorem mobile_forces_low_quality_witness :
    isMobileUA "Mozilla/5.0 (iPhone; CPU iPhone OS 16_0)" = true ∧
      handleCapabilitiesDetected
        (isMobileUA "Mozilla/5.0 (iPhone; CPU iPhone OS 16_0)")
        (mkCaps 8192) 4 = 1 :=
  ⟨by decide,
    mobile_forces_low_quality "Mozilla/5.0 (iPhone; CPU iPhone OS 16_0)"
      (mkCaps 8192) 4 (by decide)⟩

end AtuchaII
